import Mathlib

/-!
# Verification of the unified run command of the dotset CLI

This development gives a shallow embedding, in Lean, of the unified run
command of the dotset CLI (the `run` command registered by
`registerRunCommand`): CLI-option validation, secret resolution with its
local-then-remote key fallback, monitoring-session setup, the environment
merged for the spawned child, stdio wiring, signal forwarding and teardown,
exit-code normalization, the reporting phase, and the duration formatter.

External collaborators that live in other packages (the Axion manifest
manager, the Gluon telemetry/hook/monitor factories, Node's process and
spawn APIs, and the `error`/`warn` helpers of the core package) are
modelled as oracle parameters: the embedding quantifies over every outcome
those collaborators can produce, and encodes only the control flow of the
CLI source itself.

JavaScript objects used as string maps (`process.env`, the secret
variable map, the merged child environment) are modelled at lookup level
by association lists: `{...base, ...overlay}` and property assignment are
translated to operations whose lookup behaviour coincides with the
JavaScript one.
-/

set_option autoImplicit false

namespace DotsetRun

/-! ## Environments as association lists -/

/-- A JavaScript string-keyed object, at lookup level: an association list
from variable names to values.  Models `process.env`, `ServiceVariables`,
and the merged child environment. -/
abbrev EnvList := List (String × String)

/-- Property lookup `m[k]`: the value of the first binding of `k`, if any. -/
def envGet (m : EnvList) (k : String) : Option String :=
  (m.find? (fun p => p.1 == k)).map (fun p => p.2)

/-- Lookup-level model of the JavaScript spread `{...base, ...overlay}`:
a key bound in `overlay` hides any binding in `base`. -/
def overlayEnv (base overlay : EnvList) : EnvList :=
  overlay ++ base

/-- Lookup-level model of the JavaScript assignment `m.k = v`. -/
def setEnv (m : EnvList) (k v : String) : EnvList :=
  (k, v) :: m

/-! ## Signals and exit-code normalization

Node delivers the `close` event of a child process with an exit code
(`number | null`) and a terminating signal (`NodeJS.Signals | null`).
`NodeJS.Signals` is a closed union of signal-name strings; we embed a
representative subset as an enumeration (the three signals named in the
source's `signalCodes` record together with unmapped ones). -/

/-- A Node signal name (a representative subset of `NodeJS.Signals`). -/
inductive NodeSignal where
  | SIGINT
  | SIGTERM
  | SIGHUP
  | SIGKILL
  | SIGQUIT
  | SIGUSR1
  | SIGUSR2
  | SIGPIPE
  | SIGALRM
  | SIGABRT
  deriving DecidableEq, Repr

/-- The `signalCodes` record of `spawnMonitoredProcess`'s close handler:
`{ SIGINT: 130, SIGTERM: 143, SIGHUP: 129 }`, as a partial lookup. -/
def signalCodes : NodeSignal → Option Int
  | .SIGINT => some 130
  | .SIGTERM => some 143
  | .SIGHUP => some 129
  | _ => none

/-- Exit-code normalization of the close handler of `spawnMonitoredProcess`:
`signal ? (signalCodes[signal] ?? 128) : (code ?? 0)`. -/
def normalizedExitCode (code : Option Int) (signal : Option NodeSignal) : Int :=
  match signal with
  | some s => (signalCodes s).getD 128
  | none => code.getD 0

/-- The exit-code mapping exactly as claim C1 words it: three pinned
signals, `128` for any other signal, the reported code (default `0`)
for a normal exit. -/
def claimedExitCode (code : Option Int) (signal : Option NodeSignal) : Int :=
  match signal with
  | some .SIGINT => 130
  | some .SIGTERM => 143
  | some .SIGHUP => 129
  | some _ => 128
  | none => code.getD 0

/-! ## Duration formatting

`formatDuration` of the run command.  JavaScript's
`(ms / 1000).toFixed(1)` is modelled by exact half-up rounding of the
integer millisecond count to tenths of a second; the IEEE-double
representation of `ms / 1000` can flip an exact `.x50` tie, which stays
within the one-decimal rounding property proved for claim C9. -/

/-- One-decimal seconds rendering of a millisecond count:
the model of `(ms / 1000).toFixed(1)`. -/
def secondsOneDecimal (ms : Nat) : String :=
  let t := (ms + 50) / 100
  Nat.repr (t / 10) ++ "." ++ Nat.repr (t % 10)

/-- `formatDuration` of the run command: raw milliseconds below one
second, seconds with one decimal below one minute, minutes and whole
seconds otherwise. -/
def formatDuration (ms : Nat) : String :=
  if ms < 1000 then
    Nat.repr ms ++ "ms"
  else if ms < 60000 then
    secondsOneDecimal ms ++ "s"
  else
    Nat.repr (ms / 60000) ++ "m " ++ Nat.repr (ms % 60000 / 1000) ++ "s"

/-! ## Phase 1: secret resolution

`runUnified` lines 134-210.  The external Axion collaborators are an
oracle: each field is the outcome of one fallible call the source makes.
An `Except.error e` value models the call throwing an exception whose
message is `e`. -/

/-- Outcomes of the external calls made by the secret-resolution phase:
`manifest.isInitialized()`, `manifest.showKey()`, the nested remote-key
fetch (`.ok (some k)` when a key is obtained, `.ok none` when the fetch
completes without a key, `.error e` when it throws into the inner catch),
and `getVariables` on the local and on the remote-keyed manifest. -/
structure AxionOracle where
  initResult : Except String Bool
  showKeyOk : Bool
  remoteKeyResult : Except String (Option String)
  localVars : Except String EnvList
  remoteVars : Except String EnvList

/-- Result of the secret-resolution phase: the resolved variables, the
`axionAvailable` flag, and the warnings emitted (in order). -/
structure Phase1Result where
  secretVars : EnvList
  axionAvailable : Bool
  warnings : List String
  deriving DecidableEq, Repr

/-- The `encryptionKey` local variable after the key-lookup step: absent
when `showKey` succeeded (the local manifest is used directly) or when the
remote fetch produced no key. -/
def encryptionKeyOf (o : AxionOracle) : Option String :=
  if o.showKeyOk then none
  else
    match o.remoteKeyResult with
    | .ok k => k
    | .error _ => none

/-- Warnings emitted by the key-lookup step: the inner catch warns, in
verbose mode only, when the remote-key fetch throws. -/
def keyWarnings (o : AxionOracle) (verbose : Bool) : List String :=
  if o.showKeyOk then []
  else
    match o.remoteKeyResult with
    | .ok _ => []
    | .error e => if verbose then ["Could not fetch remote key: " ++ e] else []

/-- The `getVariables` call the source performs: on the remote-keyed
manifest when an encryption key was fetched, on the local manifest
otherwise. -/
def varsAttempt (o : AxionOracle) : Except String EnvList :=
  match encryptionKeyOf o with
  | some _ => o.remoteVars
  | none => o.localVars

/-- Phase 1 of `runUnified`: resolve secrets.  Skipped entirely when the
secrets flag is off; every exception of the external calls is caught and
leaves the variables empty, warning in verbose mode only. -/
def resolveSecrets (secretsFlag verbose : Bool) (o : AxionOracle) : Phase1Result :=
  if secretsFlag then
    match o.initResult with
    | .error e => ⟨[], false, if verbose then ["Axion: " ++ e] else []⟩
    | .ok false => ⟨[], false, []⟩
    | .ok true =>
        match varsAttempt o with
        | .ok vars => ⟨vars, true, keyWarnings o verbose⟩
        | .error e =>
            ⟨[], true, keyWarnings o verbose ++ (if verbose then ["Axion: " ++ e] else [])⟩
  else ⟨[], false, []⟩

/-! ## Phase 2: monitoring setup

`runUnified` lines 216-285.  The try block can throw at several points;
what matters downstream is which of the `telemetry` and `hookManager`
variables have been assigned when the throw happens, and whether
`generateSessionId` was already called.  Session ids are drawn from a
generator `gen : Nat → String` applied to a call counter, modelling that
each `generateSessionId()` call yields a fresh identifier. -/

/-- Where, if anywhere, the monitoring-setup try block throws:
before `generateSessionId` is called (config loading), at
`createCollector` (id consumed, `telemetry` still null), after
`telemetry` is assigned but before `createHookManager` returns
(`setScope`), or after `hookManager` is assigned (`createSecretsMonitor`
and everything later). -/
inductive GluonSetup where
  | failBeforeGen (e : String)
  | failAtCollector (e : String)
  | failBeforeHook (e : String)
  | failAfterHook (e : String)
  | success
  deriving DecidableEq, Repr

/-- Result of the monitoring-setup phase: the telemetry collector's
session id when the collector exists, whether a hook manager exists, and
the next unused index of the session-id generator. -/
structure Phase2Result where
  telemetry : Option String
  hookMgr : Bool
  nextGen : Nat
  deriving DecidableEq, Repr

/-- Phase 2 of `runUnified`: build the monitoring session.  Skipped when
the monitor flag is off; a throw anywhere in the try block is caught
(warning in verbose mode only) and leaves the variables assigned so far. -/
def initMonitoring (monitorFlag : Bool) (g : GluonSetup) (gen : Nat → String) :
    Phase2Result :=
  if monitorFlag then
    match g with
    | .failBeforeGen _ => ⟨none, false, 0⟩
    | .failAtCollector _ => ⟨none, false, 1⟩
    | .failBeforeHook _ => ⟨some (gen 0), false, 1⟩
    | .failAfterHook _ => ⟨some (gen 0), true, 1⟩
    | .success => ⟨some (gen 0), true, 1⟩
  else ⟨none, false, 0⟩

/-! ## Phase 3: spawning (`spawnMonitoredProcess`) -/

/-- A Node stdio wiring mode as used by the source: inherit the parent's
stream or pipe it (through the monitoring transforms). -/
inductive StdioMode where
  | inherit
  | pipe
  deriving DecidableEq, Repr

/-- The stdio triple passed to `spawn`:
`useMonitoring ? ['inherit', 'pipe', 'pipe'] : 'inherit'`
(the string shorthand means all three inherited). -/
def stdioFor (useMonitoring : Bool) : StdioMode × StdioMode × StdioMode :=
  if useMonitoring then (.inherit, .pipe, .pipe) else (.inherit, .inherit, .inherit)

/-- The merged environment of `spawnMonitoredProcess`:
`{...process.env, ...env}` and then, only when `telemetry` is non-null,
`mergedEnv.GLUON_SESSION_ID = generateSessionId()` where `sid` is that
freshly generated identifier. -/
def spawnEnv (parentEnv secretVars : EnvList) (telemetry : Option String)
    (sid : String) : EnvList :=
  let merged := overlayEnv parentEnv secretVars
  match telemetry with
  | some _ => setEnv merged "GLUON_SESSION_ID" sid
  | none => merged

/-- The terminal event of the child process: an `error` event (with the
`ENOENT` distinction) or a `close` event carrying exit code and signal. -/
inductive ChildBehavior where
  | errorEvent (enoent : Bool) (msg : String)
  | closeEvent (code : Option Int) (signal : Option NodeSignal)
  deriving DecidableEq, Repr

/-- Settlement of the promise returned by `spawnMonitoredProcess`: the
error handler rejects with a message (distinguishing command-not-found),
the close handler resolves with the normalized exit code. -/
def spawnOutcome (command : String) (cb : ChildBehavior) : Except String Int :=
  match cb with
  | .errorEvent true _ => .error ("Command not found: " ++ command)
  | .errorEvent false m => .error ("Failed to start command: " ++ m)
  | .closeEvent code sig => .ok (normalizedExitCode code sig)

/-- Observable record of the one `spawn` call: command, arguments, merged
environment and stdio wiring. -/
structure SpawnRecord where
  command : String
  args : List String
  env : EnvList
  stdioIn : StdioMode
  stdioOut : StdioMode
  stdioErr : StdioMode
  deriving DecidableEq, Repr

/-! ## The full pipeline (`runUnified` and the command action) -/

/-- The options object of the run command. -/
structure RunOptions where
  scope : String
  service : Option String
  secrets : Bool
  monitor : Bool
  mode : Option String
  redactText : Option String
  verbose : Bool
  quiet : Bool
  deriving DecidableEq, Repr

/-- How the supervising process terminates.  `error` of the core package
is modelled from the spec: it prints the message and exits with code 1;
a rejection of `runUnified` reaches the command action's catch, which
calls `error`, so usage errors, spawn failures and reporting failures all
end with exit code 1, while the success path reaches
`process.exit(result.exitCode)`. -/
inductive RunOutcome where
  | usageError (msg : String)
  | spawnFailed (msg : String)
  | reportFailed (msg : String)
  | exited (code : Int)
  deriving DecidableEq, Repr

/-- The exit code of the supervising process for each outcome. -/
def finalExitCode : RunOutcome → Int
  | .usageError _ => 1
  | .spawnFailed _ => 1
  | .reportFailed _ => 1
  | .exited c => c

/-- Outcomes of the external calls of the reporting phase:
`telemetry.shutdown()` and `telemetry.getStats()` (the latter yielding
the secret-exposure count). -/
structure ReportOracle where
  shutdownResult : Except String Unit
  statsResult : Except String Nat

/-- Observable trace of one invocation of the run command: the terminal
outcome, whether validation passed (so that the secret-resolution and
monitoring phases executed), the `spawn` call if one was made, the
telemetry collector's session id if one was created, and the warnings of
the secret-resolution phase. -/
structure RunTrace where
  outcome : RunOutcome
  reachedPhases : Bool
  spawned : Option SpawnRecord
  telemetrySession : Option String
  secretWarnings : List String

def scopeValues : List String := ["development", "staging", "production"]

def modeValues : List String := ["detect", "redact", "block"]

def noCommandMsg : String := "No command specified. Usage: dotset run -- <command>"

def invalidScopeMsg : String :=
  "Invalid scope. Must be one of: development, staging, production"

def invalidModeMsg : String := "Invalid mode. Must be one of: detect, redact, block"

/-- The validation at the top of `runUnified`, in source order: the
`!command` truthiness check (failing for a missing or empty command), the
scope membership check, then the mode check guarded by
`mode && !['detect','redact','block'].includes(mode)` — an empty mode
string is falsy in JavaScript, so it skips the membership test. -/
def usageFailure (commandArgs : List String) (opts : RunOptions) : Option String :=
  match commandArgs with
  | [] => some noCommandMsg
  | command :: _ =>
    if command == "" then some noCommandMsg
    else if !(scopeValues.contains opts.scope) then some invalidScopeMsg
    else
      match opts.mode with
      | some m =>
          if m != "" && !(modeValues.contains m) then some invalidModeMsg else none
      | none => none

/-- The whole run command, from the action of `registerRunCommand` through
`runUnified` and `spawnMonitoredProcess` to the final exit: validation,
secret resolution, monitoring setup, spawn, and the reporting phase (which
runs only when the spawn promise resolved, and whose telemetry calls run
only when a collector exists). -/
def runUnified (commandArgs : List String) (opts : RunOptions) (parentEnv : EnvList)
    (ax : AxionOracle) (g : GluonSetup) (gen : Nat → String)
    (cb : ChildBehavior) (ro : ReportOracle) : RunTrace :=
  match usageFailure commandArgs opts with
  | some msg => ⟨.usageError msg, false, none, none, []⟩
  | none =>
    let command := commandArgs.headD ""
    let args := commandArgs.tail
    let p1 := resolveSecrets opts.secrets opts.verbose ax
    let p2 := initMonitoring opts.monitor g gen
    let env := spawnEnv parentEnv p1.secretVars p2.telemetry (gen p2.nextGen)
    let s := stdioFor p2.hookMgr
    let record : SpawnRecord := ⟨command, args, env, s.1, s.2.1, s.2.2⟩
    let outcome :=
      match spawnOutcome command cb with
      | .error m => RunOutcome.spawnFailed m
      | .ok code =>
        match p2.telemetry with
        | none => RunOutcome.exited code
        | some _ =>
          match ro.shutdownResult with
          | .error e => RunOutcome.reportFailed e
          | .ok _ =>
            match ro.statsResult with
            | .error e => RunOutcome.reportFailed e
            | .ok _ => RunOutcome.exited code
    ⟨outcome, true, some record, p2.telemetry, p1.warnings⟩

/-! ## Signal forwarding and teardown

The signal-handling part of `spawnMonitoredProcess`, as a small event
system: the state is the set of installed signal routes (the
`signalHandlers` map) plus whether the child has a pid; events are signal
deliveries to the supervisor and the child's terminal events; each step
also reports the externally visible actions it performs (a `kill`
forwarded to the child, a route removed from the process). -/

/-- The `FORWARDED_SIGNALS` constant of the source. -/
def FORWARDED_SIGNALS : List NodeSignal := [.SIGINT, .SIGTERM, .SIGHUP]

/-- An event seen by the supervisor after `spawn` returns. -/
inductive SupEvent where
  | deliver (s : NodeSignal)
  | childError (msg : String)
  | childClose (code : Option Int) (signal : Option NodeSignal)
  deriving DecidableEq, Repr

/-- An externally visible action of the signal machinery. -/
inductive SupAction where
  | kill (s : NodeSignal)
  | removeRoute (s : NodeSignal)
  deriving DecidableEq, Repr

/-- Supervisor state: the installed routes (keys of the `signalHandlers`
map, equally the listeners registered on `process`) and whether
`child.pid` is set. -/
structure SupState where
  handlers : List NodeSignal
  hasPid : Bool
  deriving DecidableEq, Repr

/-- Whether an event is a terminal transition of the child. -/
def isTerminal : SupEvent → Bool
  | .deliver _ => false
  | .childError _ => true
  | .childClose _ _ => true

/-- One step of the signal machinery.  A delivered signal runs the
registered handler only if its route is still installed, and the handler
forwards the signal with `child.kill` only if `child.pid` is set.  Both
terminal handlers call `cleanupSignalHandlers`, which removes every
currently registered route and clears the map. -/
def supStep (st : SupState) : SupEvent → SupState × List SupAction
  | .deliver s =>
      (st, if st.handlers.contains s && st.hasPid then [.kill s] else [])
  | .childError _ => (⟨[], st.hasPid⟩, st.handlers.map .removeRoute)
  | .childClose _ _ => (⟨[], st.hasPid⟩, st.handlers.map .removeRoute)

/-- Run the signal machinery over a list of events, accumulating the
action log. -/
def runSup (st : SupState) : List SupEvent → SupState × List SupAction
  | [] => (st, [])
  | e :: es =>
      let step := supStep st e
      let rest := runSup step.1 es
      (rest.1, step.2 ++ rest.2)

/-- State right after `setupSignalForwarding()`: all three routes
installed. -/
def initialSupState (hasPid : Bool) : SupState :=
  ⟨FORWARDED_SIGNALS, hasPid⟩

/-- How often an action log removes the route of a given signal. -/
def countRemove (s : NodeSignal) (l : List SupAction) : Nat :=
  l.count (.removeRoute s)

end DotsetRun

namespace DotsetRun

/-! ## Lookup lemmas for the environment model -/

theorem envGet_cons (p : String × String) (m : EnvList) (k : String) :
    envGet (p :: m) k = if p.1 == k then some p.2 else envGet m k := by
  by_cases h : p.1 == k <;> simp [envGet, List.find?, h]

theorem envGet_append (m₁ m₂ : EnvList) (k : String) :
    envGet (m₁ ++ m₂) k = (envGet m₁ k).or (envGet m₂ k) := by
  induction m₁ with
  | nil => simp [envGet]
  | cons p t ih =>
      by_cases h : p.1 == k <;> simp [envGet_cons, h, ih, Option.or]

theorem envGet_overlayEnv (base overlay : EnvList) (k : String) :
    envGet (overlayEnv base overlay) k = (envGet overlay k).or (envGet base k) := by
  simp [overlayEnv, envGet_append]

theorem envGet_setEnv (m : EnvList) (k v k' : String) :
    envGet (setEnv m k v) k' = if k == k' then some v else envGet m k' := by
  simp [setEnv, envGet_cons]

theorem envGet_spawnEnv (parentEnv secretVars : EnvList) (tel : Option String)
    (sid : String) (k : String) :
    envGet (spawnEnv parentEnv secretVars tel sid) k =
      if tel.isSome && ("GLUON_SESSION_ID" == k) then some sid
      else (envGet secretVars k).or (envGet parentEnv k) := by
  cases tel with
  | none => simp [spawnEnv, envGet_overlayEnv]
  | some s =>
      simp only [spawnEnv, envGet_setEnv, envGet_overlayEnv, Option.isSome_some,
        Bool.true_and]

/-! ## Shape lemmas for the pipeline -/

theorem runUnified_usage {commandArgs : List String} {opts : RunOptions}
    (parentEnv : EnvList) (ax : AxionOracle) (g : GluonSetup) (gen : Nat → String)
    (cb : ChildBehavior) (ro : ReportOracle) {msg : String}
    (h : usageFailure commandArgs opts = some msg) :
    runUnified commandArgs opts parentEnv ax g gen cb ro =
      ⟨.usageError msg, false, none, none, []⟩ := by
  simp [runUnified, h]

theorem runUnified_valid {commandArgs : List String} {opts : RunOptions}
    (parentEnv : EnvList) (ax : AxionOracle) (g : GluonSetup) (gen : Nat → String)
    (cb : ChildBehavior) (ro : ReportOracle)
    (h : usageFailure commandArgs opts = none) :
    runUnified commandArgs opts parentEnv ax g gen cb ro =
      ⟨(match spawnOutcome (commandArgs.headD "") cb with
         | .error m => RunOutcome.spawnFailed m
         | .ok code =>
           match (initMonitoring opts.monitor g gen).telemetry with
           | none => RunOutcome.exited code
           | some _ =>
             match ro.shutdownResult with
             | .error e => RunOutcome.reportFailed e
             | .ok _ =>
               match ro.statsResult with
               | .error e => RunOutcome.reportFailed e
               | .ok _ => RunOutcome.exited code),
        true,
        some ⟨commandArgs.headD "", commandArgs.tail,
          spawnEnv parentEnv (resolveSecrets opts.secrets opts.verbose ax).secretVars
            (initMonitoring opts.monitor g gen).telemetry
            (gen (initMonitoring opts.monitor g gen).nextGen),
          (stdioFor (initMonitoring opts.monitor g gen).hookMgr).1,
          (stdioFor (initMonitoring opts.monitor g gen).hookMgr).2.1,
          (stdioFor (initMonitoring opts.monitor g gen).hookMgr).2.2⟩,
        (initMonitoring opts.monitor g gen).telemetry,
        (resolveSecrets opts.secrets opts.verbose ax).warnings⟩ := by
  simp [runUnified, h]

theorem initMonitoring_nextGen {m : Bool} {g : GluonSetup} {gen : Nat → String}
    (h : (initMonitoring m g gen).telemetry.isSome = true) :
    (initMonitoring m g gen).nextGen = 1 := by
  cases m <;> cases g <;> simp [initMonitoring] at h ⊢

theorem resolveSecrets_disabled (verbose : Bool) (o : AxionOracle) :
    resolveSecrets false verbose o = ⟨[], false, []⟩ := by
  simp [resolveSecrets]

/-! ## Claim C1 -/

/-- C1: for every close event, a signal-terminated child maps to 130 for
SIGINT, 143 for SIGTERM, 129 for SIGHUP and 128 for any other signal,
and a normally exited child maps to its reported exit code, or 0 when
the code is unset. -/
theorem exit_code_normalization_matches_claim
    (code : Option Int) (signal : Option NodeSignal) :
    normalizedExitCode code signal = claimedExitCode code signal := by
  cases signal with
  | none => rfl
  | some s => cases s <;> rfl

/-! ## Claim C9 -/

/-- C9: for every non-negative millisecond count, `formatDuration`
returns the raw count suffixed "ms" below one second; below one minute it
returns a seconds value with exactly one decimal digit suffixed "s",
where the rendered tenths-of-a-second value is within half a tenth of
the exact quotient (the one-decimal rounding of ms/1000); otherwise it
returns floor(ms/60000) whole minutes and floor((ms mod 60000)/1000)
whole seconds in the form "Xm Ys". -/
theorem formatDuration_matches_claim (ms : Nat) :
    (ms < 1000 → formatDuration ms = Nat.repr ms ++ "ms") ∧
    (1000 ≤ ms → ms < 60000 →
      ∃ t : Nat,
        formatDuration ms = Nat.repr (t / 10) ++ "." ++ Nat.repr (t % 10) ++ "s" ∧
        100 * t ≤ ms + 50 ∧ ms ≤ 100 * t + 50) ∧
    (60000 ≤ ms →
      formatDuration ms =
        Nat.repr (ms / 60000) ++ "m " ++ Nat.repr (ms % 60000 / 1000) ++ "s") := by
  refine ⟨fun h => by simp [formatDuration, h], fun h1 h2 => ?_, fun h => ?_⟩
  · refine ⟨(ms + 50) / 100, ?_, ?_, ?_⟩
    · simp [formatDuration, secondsOneDecimal, Nat.not_lt.mpr h1, h2]
    · have h := Nat.div_add_mod (ms + 50) 100
      have h' := Nat.mod_lt (ms + 50) (show 0 < 100 by norm_num)
      omega
    · have h := Nat.div_add_mod (ms + 50) 100
      have h' := Nat.mod_lt (ms + 50) (show 0 < 100 by norm_num)
      omega
  · have h1 : ¬ ms < 1000 := by omega
    have h2 : ¬ ms < 60000 := by omega
    simp [formatDuration, h1, h2]

/-- Witness for C9: evaluation on one input in each branch. -/
theorem formatDuration_matches_claim_witness :
    formatDuration 500 = "500ms" ∧
    (∃ t : Nat,
      formatDuration 1234 = Nat.repr (t / 10) ++ "." ++ Nat.repr (t % 10) ++ "s" ∧
      100 * t ≤ 1234 + 50 ∧ 1234 ≤ 100 * t + 50) ∧
    formatDuration 61500 = "1m 1s" := by
  refine ⟨(formatDuration_matches_claim 500).1 (by norm_num),
    (formatDuration_matches_claim 1234).2.1 (by norm_num) (by norm_num),
    ?_⟩
  have h := (formatDuration_matches_claim 61500).2.2 (by norm_num)
  simpa using h

end DotsetRun

namespace DotsetRun

/-! ## Claim C3 -/

/-- C3: when the run is invoked with secrets disabled, then whatever the
state of the secret provider, the environment passed to the spawned child
agrees with the inherited parent environment on every key other than the
generated session identifier — in particular no provider-sourced secret
binding is added. -/
theorem no_secrets_env_unchanged
    (commandArgs : List String) (opts : RunOptions) (parentEnv : EnvList)
    (ax : AxionOracle) (g : GluonSetup) (gen : Nat → String)
    (cb : ChildBehavior) (ro : ReportOracle) (rec : SpawnRecord)
    (hsec : opts.secrets = false)
    (hs : (runUnified commandArgs opts parentEnv ax g gen cb ro).spawned = some rec)
    (k : String) (hk : k ≠ "GLUON_SESSION_ID") :
    envGet rec.env k = envGet parentEnv k := by
  cases h : usageFailure commandArgs opts with
  | some m =>
      rw [runUnified_usage parentEnv ax g gen cb ro h] at hs
      cases hs
  | none =>
      rw [runUnified_valid parentEnv ax g gen cb ro h] at hs
      obtain rfl := Option.some.inj hs
      have hbeq : ("GLUON_SESSION_ID" == k) = false :=
        beq_eq_false_iff_ne.mpr (Ne.symm hk)
      rw [hsec, resolveSecrets_disabled opts.verbose ax, envGet_spawnEnv, hbeq]
      simp [envGet, Option.or]

/-- Witness for C3: a provider holding TEST_SECRET, a run with secrets
disabled and monitoring on; the child environment does not bind
TEST_SECRET (both lookups are `none`). -/
theorem no_secrets_env_unchanged_witness :
    envGet [("GLUON_SESSION_ID", "1"), ("HOME", "/root")] "TEST_SECRET" =
      envGet [("HOME", "/root")] "TEST_SECRET" :=
  no_secrets_env_unchanged ["printenv"]
    ⟨"development", none, false, true, none, none, false, false⟩
    [("HOME", "/root")]
    ⟨.ok true, true, .ok none, .ok [("TEST_SECRET", "should-not-appear")], .ok []⟩
    .success (fun n => Nat.repr n) (.closeEvent (some 0) none) ⟨.ok (), .ok 0⟩
    ⟨"printenv", [], [("GLUON_SESSION_ID", "1"), ("HOME", "/root")],
      .inherit, .pipe, .pipe⟩
    rfl rfl "TEST_SECRET" (by decide)

/-! ## Claim C8 -/

/-- C8: the environment passed to the child is the inherited parent
environment, overlaid by the resolved secret mapping (a key present in
both resolves to the secret's value), overlaid by the generated session
identifier, which is present exactly when a telemetry collector was
created. -/
theorem child_env_layering
    (commandArgs : List String) (opts : RunOptions) (parentEnv : EnvList)
    (ax : AxionOracle) (g : GluonSetup) (gen : Nat → String)
    (cb : ChildBehavior) (ro : ReportOracle) (rec : SpawnRecord)
    (hs : (runUnified commandArgs opts parentEnv ax g gen cb ro).spawned = some rec)
    (k : String) :
    envGet rec.env k =
      if (runUnified commandArgs opts parentEnv ax g gen cb ro).telemetrySession.isSome
          && ("GLUON_SESSION_ID" == k)
      then some (gen 1)
      else (envGet (resolveSecrets opts.secrets opts.verbose ax).secretVars k).or
             (envGet parentEnv k) := by
  cases h : usageFailure commandArgs opts with
  | some m =>
      rw [runUnified_usage parentEnv ax g gen cb ro h] at hs
      cases hs
  | none =>
      rw [runUnified_valid parentEnv ax g gen cb ro h] at hs
      obtain rfl := Option.some.inj hs
      rw [runUnified_valid parentEnv ax g gen cb ro h]
      cases ht : (initMonitoring opts.monitor g gen).telemetry.isSome with
      | false => simp [envGet_spawnEnv, ht]
      | true =>
          rw [initMonitoring_nextGen ht]
          simp [envGet_spawnEnv, ht]

/-- Witness for C8: a parent variable FOO overridden by a resolved secret,
and the session identifier present under monitoring. -/
theorem child_env_layering_witness :
    envGet [("GLUON_SESSION_ID", "sid-1"), ("FOO", "secret"),
      ("FOO", "parent"), ("BAR", "parent")] "FOO" = some "secret" ∧
    envGet [("GLUON_SESSION_ID", "sid-1"), ("FOO", "secret"),
      ("FOO", "parent"), ("BAR", "parent")] "GLUON_SESSION_ID" = some "sid-1" := by
  constructor
  · exact (child_env_layering ["node"]
      ⟨"development", none, true, true, none, none, false, false⟩
      [("FOO", "parent"), ("BAR", "parent")]
      ⟨.ok true, true, .ok none, .ok [("FOO", "secret")], .ok []⟩
      .success (fun n => "sid-" ++ Nat.repr n) (.closeEvent (some 0) none)
      ⟨.ok (), .ok 0⟩
      ⟨"node", [], [("GLUON_SESSION_ID", "sid-1"), ("FOO", "secret"),
        ("FOO", "parent"), ("BAR", "parent")], .inherit, .pipe, .pipe⟩
      rfl "FOO").trans (by decide)
  · exact (child_env_layering ["node"]
      ⟨"development", none, true, true, none, none, false, false⟩
      [("FOO", "parent"), ("BAR", "parent")]
      ⟨.ok true, true, .ok none, .ok [("FOO", "secret")], .ok []⟩
      .success (fun n => "sid-" ++ Nat.repr n) (.closeEvent (some 0) none)
      ⟨.ok (), .ok 0⟩
      ⟨"node", [], [("GLUON_SESSION_ID", "sid-1"), ("FOO", "secret"),
        ("FOO", "parent"), ("BAR", "parent")], .inherit, .pipe, .pipe⟩
      rfl "GLUON_SESSION_ID").trans (by decide)

/-! ## Claim C4 -/

/-- C4 (code bug): in a fully successful monitored run whose session-id
generator yields sid-0, sid-1, ... on successive calls, the telemetry
collector is created with sid-0 but the child environment's
GLUON_SESSION_ID is a second, freshly generated identifier sid-1 —
the two differ, so the overlaid identifier does not equal the session id
correlating the run's telemetry records. -/
theorem env_session_id_differs_from_telemetry_session :
    (runUnified ["server"] ⟨"development", none, false, true, none, none, false, false⟩
        [] ⟨.ok false, true, .ok none, .ok [], .ok []⟩ .success
        (fun n => "sid-" ++ Nat.repr n) (.closeEvent (some 0) none)
        ⟨.ok (), .ok 0⟩).telemetrySession = some "sid-0" ∧
    ((runUnified ["server"] ⟨"development", none, false, true, none, none, false, false⟩
        [] ⟨.ok false, true, .ok none, .ok [], .ok []⟩ .success
        (fun n => "sid-" ++ Nat.repr n) (.closeEvent (some 0) none)
        ⟨.ok (), .ok 0⟩).spawned.map fun r => envGet r.env "GLUON_SESSION_ID") =
      some (some "sid-1") ∧
    "sid-0" ≠ "sid-1" :=
  ⟨rfl, rfl, by decide⟩

/-! ## Claim C2 -/

/-- C2 (code bug): a monitored run whose child exits normally with code 7,
but whose telemetry shutdown fails during the reporting phase: the
rejection is not caught inside the reporting phase, it reaches the command
action's catch, and the supervising process exits with code 1 instead of
the normalized exit code 7. -/
theorem report_failure_overrides_exit_code :
    normalizedExitCode (some 7) none = 7 ∧
    (runUnified ["server"] ⟨"development", none, false, true, none, none, false, false⟩
        [] ⟨.ok false, true, .ok none, .ok [], .ok []⟩ .success
        (fun n => "sid-" ++ Nat.repr n) (.closeEvent (some 7) none)
        ⟨.error "flush failed", .ok 0⟩).outcome =
      RunOutcome.reportFailed "flush failed" ∧
    finalExitCode
      (runUnified ["server"] ⟨"development", none, false, true, none, none, false, false⟩
        [] ⟨.ok false, true, .ok none, .ok [], .ok []⟩ .success
        (fun n => "sid-" ++ Nat.repr n) (.closeEvent (some 7) none)
        ⟨.error "flush failed", .ok 0⟩).outcome = 1 :=
  ⟨rfl, rfl, rfl⟩

end DotsetRun

namespace DotsetRun

/-! ## Claim C5 -/

theorem keyWarnings_not_verbose (o : AxionOracle) : keyWarnings o false = [] := by
  rcases o with ⟨i, sk, rk, lv, rv⟩
  cases sk <;> cases rk <;> simp [keyWarnings]

/-- C5: with secrets enabled, every failing step of secret resolution —
the provider's init check throwing, the provider reporting itself not
initialized, or the variable fetch/decryption throwing (on whichever
manifest the local-then-remote key fallback selected) — leaves the
resolved mapping empty; no warning is emitted unless verbose mode is set;
and for every provider state the run still proceeds to spawn the target
command. -/
theorem secret_failure_soft_degradation (verbose : Bool) (o : AxionOracle) :
    (∀ e, o.initResult = .error e → (resolveSecrets true verbose o).secretVars = []) ∧
    (o.initResult = .ok false → (resolveSecrets true verbose o).secretVars = []) ∧
    (∀ e, varsAttempt o = .error e → (resolveSecrets true verbose o).secretVars = []) ∧
    (verbose = false → (resolveSecrets true verbose o).warnings = []) ∧
    (∀ commandArgs opts parentEnv g gen cb ro,
      usageFailure commandArgs opts = none →
      ((runUnified commandArgs opts parentEnv o g gen cb ro).spawned).isSome = true) := by
  refine ⟨?_, ?_, ?_, ?_, ?_⟩
  · intro e he; simp [resolveSecrets, he]
  · intro he; simp [resolveSecrets, he]
  · intro e he
    cases hi : o.initResult with
    | error e' => simp [resolveSecrets, hi]
    | ok b =>
        cases b with
        | false => simp [resolveSecrets, hi]
        | true => simp [resolveSecrets, hi, he]
  · intro hv
    subst hv
    cases hi : o.initResult with
    | error e => simp [resolveSecrets, hi]
    | ok b =>
        cases b with
        | false => simp [resolveSecrets, hi]
        | true =>
            cases hva : varsAttempt o with
            | ok vars => simp [resolveSecrets, hi, hva, keyWarnings_not_verbose]
            | error e => simp [resolveSecrets, hi, hva, keyWarnings_not_verbose]
  · intro commandArgs opts parentEnv g gen cb ro h
    rw [runUnified_valid parentEnv o g gen cb ro h]
    rfl

/-- Witness for C5: a provider whose init check throws, in non-verbose
mode: empty mapping, no warnings, and the child is still spawned. -/
theorem secret_failure_soft_degradation_witness :
    (resolveSecrets true false
      ⟨.error "boom", false, .ok none, .ok [], .ok []⟩).secretVars = [] ∧
    (resolveSecrets true false
      ⟨.error "boom", false, .ok none, .ok [], .ok []⟩).warnings = [] ∧
    ((runUnified ["echo"] ⟨"development", none, true, false, none, none, false, false⟩
        [] ⟨.error "boom", false, .ok none, .ok [], .ok []⟩ .success
        (fun n => Nat.repr n) (.closeEvent (some 0) none)
        ⟨.ok (), .ok 0⟩).spawned).isSome = true :=
  ⟨(secret_failure_soft_degradation false
      ⟨.error "boom", false, .ok none, .ok [], .ok []⟩).1 "boom" rfl,
   (secret_failure_soft_degradation false
      ⟨.error "boom", false, .ok none, .ok [], .ok []⟩).2.2.2.1 rfl,
   (secret_failure_soft_degradation false
      ⟨.error "boom", false, .ok none, .ok [], .ok []⟩).2.2.2.2
     ["echo"] ⟨"development", none, true, false, none, none, false, false⟩
     [] .success (fun n => Nat.repr n) (.closeEvent (some 0) none)
     ⟨.ok (), .ok 0⟩ rfl⟩

/-! ## Claim C7 -/

/-- Counterexample to C7 as stated: the empty mode string is outside
{detect, redact, block}, yet — being falsy in JavaScript — it skips the
`mode && !modes.includes(mode)` validation: the child is spawned and the
supervisor exits 0, not 1. -/
theorem empty_mode_escapes_validation :
    modeValues.contains "" = false ∧
    ((runUnified ["echo"] ⟨"development", none, false, false, some "", none, false, false⟩
        [] ⟨.ok false, true, .ok none, .ok [], .ok []⟩ .success
        (fun n => Nat.repr n) (.closeEvent (some 0) none)
        ⟨.ok (), .ok 0⟩).spawned).isSome = true ∧
    (runUnified ["echo"] ⟨"development", none, false, false, some "", none, false, false⟩
        [] ⟨.ok false, true, .ok none, .ok [], .ok []⟩ .success
        (fun n => Nat.repr n) (.closeEvent (some 0) none)
        ⟨.ok (), .ok 0⟩).outcome = RunOutcome.exited 0 ∧
    finalExitCode
      (runUnified ["echo"] ⟨"development", none, false, false, some "", none, false, false⟩
        [] ⟨.ok false, true, .ok none, .ok [], .ok []⟩ .success
        (fun n => Nat.repr n) (.closeEvent (some 0) none)
        ⟨.ok (), .ok 0⟩).outcome ≠ 1 :=
  ⟨rfl, rfl, rfl, by decide⟩

theorem usageFailure_scope_invalid {commandArgs : List String} {opts : RunOptions}
    (h : scopeValues.contains opts.scope = false) :
    ∃ msg, usageFailure commandArgs opts = some msg := by
  cases commandArgs with
  | nil => exact ⟨noCommandMsg, rfl⟩
  | cons c rest =>
      cases hc : (c == "") with
      | true => exact ⟨noCommandMsg, by simp [usageFailure, hc]⟩
      | false =>
          have h' : opts.scope ∉ scopeValues := by simpa using h
          exact ⟨invalidScopeMsg, by simp [usageFailure, hc, h']⟩

theorem usageFailure_mode_invalid {commandArgs : List String} {opts : RunOptions}
    {m : String} (hm : opts.mode = some m) (hne : m ≠ "")
    (hmem : modeValues.contains m = false) :
    ∃ msg, usageFailure commandArgs opts = some msg := by
  cases commandArgs with
  | nil => exact ⟨noCommandMsg, rfl⟩
  | cons c rest =>
      cases hc : (c == "") with
      | true => exact ⟨noCommandMsg, by simp [usageFailure, hc]⟩
      | false =>
          cases hsc : scopeValues.contains opts.scope with
          | false =>
              have hsc' : opts.scope ∉ scopeValues := by simpa using hsc
              exact ⟨invalidScopeMsg, by simp [usageFailure, hc, hsc']⟩
          | true =>
              have hsc' : opts.scope ∈ scopeValues := by simpa using hsc
              have hmem' : m ∉ modeValues := by simpa using hmem
              exact ⟨invalidModeMsg, by simp [usageFailure, hc, hm, hsc', hmem', hne]⟩

/-- C7 (amended): for every scope value outside {development, staging,
production}, and likewise for every non-empty mode value outside
{detect, redact, block} (the empty mode string is falsy and skips the
check), the run command reports a usage error and exits 1 before secret
resolution or monitoring setup run and before any child is spawned. -/
theorem usage_validation_blocks_run
    (commandArgs : List String) (opts : RunOptions) (parentEnv : EnvList)
    (ax : AxionOracle) (g : GluonSetup) (gen : Nat → String)
    (cb : ChildBehavior) (ro : ReportOracle) :
    (scopeValues.contains opts.scope = false →
      (∃ m, (runUnified commandArgs opts parentEnv ax g gen cb ro).outcome =
        RunOutcome.usageError m) ∧
      finalExitCode (runUnified commandArgs opts parentEnv ax g gen cb ro).outcome = 1 ∧
      (runUnified commandArgs opts parentEnv ax g gen cb ro).spawned = none ∧
      (runUnified commandArgs opts parentEnv ax g gen cb ro).reachedPhases = false) ∧
    (∀ m, opts.mode = some m → m ≠ "" → modeValues.contains m = false →
      (∃ m', (runUnified commandArgs opts parentEnv ax g gen cb ro).outcome =
        RunOutcome.usageError m') ∧
      finalExitCode (runUnified commandArgs opts parentEnv ax g gen cb ro).outcome = 1 ∧
      (runUnified commandArgs opts parentEnv ax g gen cb ro).spawned = none ∧
      (runUnified commandArgs opts parentEnv ax g gen cb ro).reachedPhases = false) := by
  constructor
  · intro h
    obtain ⟨msg, hmsg⟩ := usageFailure_scope_invalid h
    rw [runUnified_usage parentEnv ax g gen cb ro hmsg]
    exact ⟨⟨msg, rfl⟩, rfl, rfl, rfl⟩
  · intro m hm hne hmem
    obtain ⟨msg, hmsg⟩ := usageFailure_mode_invalid hm hne hmem
    rw [runUnified_usage parentEnv ax g gen cb ro hmsg]
    exact ⟨⟨msg, rfl⟩, rfl, rfl, rfl⟩

/-- Witness for C7 (amended): an invalid scope spawns nothing, and an
invalid non-empty mode exits 1. -/
theorem usage_validation_blocks_run_witness :
    (runUnified ["echo"] ⟨"prod", none, true, true, none, none, false, false⟩
      [] ⟨.ok false, true, .ok none, .ok [], .ok []⟩ .success
      (fun n => Nat.repr n) (.closeEvent (some 0) none)
      ⟨.ok (), .ok 0⟩).spawned = none ∧
    finalExitCode
      (runUnified ["echo"] ⟨"development", none, true, true, some "observe", none, false, false⟩
        [] ⟨.ok false, true, .ok none, .ok [], .ok []⟩ .success
        (fun n => Nat.repr n) (.closeEvent (some 0) none)
        ⟨.ok (), .ok 0⟩).outcome = 1 :=
  ⟨((usage_validation_blocks_run ["echo"] ⟨"prod", none, true, true, none, none, false, false⟩
      [] ⟨.ok false, true, .ok none, .ok [], .ok []⟩ .success
      (fun n => Nat.repr n) (.closeEvent (some 0) none)
      ⟨.ok (), .ok 0⟩).1 (by decide)).2.2.1,
   ((usage_validation_blocks_run ["echo"]
      ⟨"development", none, true, true, some "observe", none, false, false⟩
      [] ⟨.ok false, true, .ok none, .ok [], .ok []⟩ .success
      (fun n => Nat.repr n) (.closeEvent (some 0) none)
      ⟨.ok (), .ok 0⟩).2 "observe" rfl (by decide) (by decide)).2.1⟩

/-! ## Claim C10 -/

/-- C10: in every run that spawns a child, the child's standard input is
inherited from the supervising process; monitoring being active (a hook
manager exists) switches stdout and stderr to piped transforms, and
monitoring being inactive leaves them inherited — stdin is identical in
both cases. -/
theorem stdin_inherited_regardless_of_monitoring
    (commandArgs : List String) (opts : RunOptions) (parentEnv : EnvList)
    (ax : AxionOracle) (g : GluonSetup) (gen : Nat → String)
    (cb : ChildBehavior) (ro : ReportOracle) (rec : SpawnRecord)
    (hs : (runUnified commandArgs opts parentEnv ax g gen cb ro).spawned = some rec) :
    rec.stdioIn = StdioMode.inherit ∧
    ((initMonitoring opts.monitor g gen).hookMgr = true →
      rec.stdioOut = StdioMode.pipe ∧ rec.stdioErr = StdioMode.pipe) ∧
    ((initMonitoring opts.monitor g gen).hookMgr = false →
      rec.stdioOut = StdioMode.inherit ∧ rec.stdioErr = StdioMode.inherit) := by
  cases h : usageFailure commandArgs opts with
  | some m =>
      rw [runUnified_usage parentEnv ax g gen cb ro h] at hs
      cases hs
  | none =>
      rw [runUnified_valid parentEnv ax g gen cb ro h] at hs
      obtain rfl := Option.some.inj hs
      refine ⟨?_, ?_, ?_⟩
      · cases hm : (initMonitoring opts.monitor g gen).hookMgr <;> simp [stdioFor, hm]
      · intro hm; simp [stdioFor, hm]
      · intro hm; simp [stdioFor, hm]

/-- Witness for C10: a monitored run pipes stdout/stderr but keeps stdin
inherited. -/
theorem stdin_inherited_regardless_of_monitoring_witness :
    (⟨"node", [], [("GLUON_SESSION_ID", "sid-1")],
      .inherit, .pipe, .pipe⟩ : SpawnRecord).stdioIn = StdioMode.inherit :=
  (stdin_inherited_regardless_of_monitoring ["node"]
    ⟨"development", none, false, true, none, none, false, false⟩ []
    ⟨.ok false, true, .ok none, .ok [], .ok []⟩ .success
    (fun n => "sid-" ++ Nat.repr n) (.closeEvent (some 0) none) ⟨.ok (), .ok 0⟩
    ⟨"node", [], [("GLUON_SESSION_ID", "sid-1")], .inherit, .pipe, .pipe⟩
    rfl).1

end DotsetRun

namespace DotsetRun

/-! ## Claim C6 -/

theorem runSup_state (st : SupState) (t : List SupEvent) :
    (runSup st t).1 = ⟨if t.any isTerminal then [] else st.handlers, st.hasPid⟩ := by
  induction t generalizing st with
  | nil => simp [runSup]
  | cons e es ih =>
      cases e with
      | deliver s => simp [runSup, supStep, isTerminal, ih]
      | childError m => simp [runSup, supStep, isTerminal, ih]
      | childClose c sg => simp [runSup, supStep, isTerminal, ih]

theorem runSup_append (st : SupState) (t₁ t₂ : List SupEvent) :
    runSup st (t₁ ++ t₂) =
      ((runSup (runSup st t₁).1 t₂).1,
       (runSup st t₁).2 ++ (runSup (runSup st t₁).1 t₂).2) := by
  induction t₁ generalizing st with
  | nil => simp [runSup]
  | cons e es ih => simp [runSup, ih]

theorem removeRoute_injective : Function.Injective SupAction.removeRoute :=
  fun _ _ h => SupAction.removeRoute.inj h

theorem countRemove_map (s : NodeSignal) (hs : List NodeSignal) :
    countRemove s (hs.map SupAction.removeRoute) = hs.count s := by
  simp [countRemove, List.count_map_of_injective hs SupAction.removeRoute
    removeRoute_injective s]

theorem countRemove_kill (s s' : NodeSignal) (b : Bool) :
    countRemove s (if b then [SupAction.kill s'] else []) = 0 := by
  cases b <;> simp [countRemove, List.count_cons]

theorem countRemove_append (s : NodeSignal) (l₁ l₂ : List SupAction) :
    countRemove s (l₁ ++ l₂) = countRemove s l₁ + countRemove s l₂ := by
  simp [countRemove, List.count_append]

theorem countRemove_runSup (st : SupState) (t : List SupEvent) (s : NodeSignal) :
    countRemove s (runSup st t).2 =
      if t.any isTerminal then st.handlers.count s else 0 := by
  induction t generalizing st with
  | nil => simp [runSup, countRemove]
  | cons e es ih =>
      cases e with
      | deliver s' =>
          simp only [runSup, supStep, countRemove_append, countRemove_kill, ih,
            List.any_cons, isTerminal, Bool.false_or, Nat.zero_add]
      | childError m =>
          simp only [runSup, supStep, countRemove_append, countRemove_map, ih,
            List.any_cons, isTerminal, Bool.true_or, if_true]
          simp
      | childClose c sg =>
          simp only [runSup, supStep, countRemove_append, countRemove_map, ih,
            List.any_cons, isTerminal, Bool.true_or, if_true]
          simp

theorem forwarded_count (s : NodeSignal) :
    FORWARDED_SIGNALS.count s = if FORWARDED_SIGNALS.contains s then 1 else 0 := by
  cases s <;> decide

/-- C6: over every event trace starting when supervision begins, (i) each
forwarded signal's route is removed exactly once when a terminal
transition occurs in the trace and never otherwise; (ii) the first
terminal transition removes exactly the three forwarded routes; (iii) a
further terminal event after teardown removes nothing (idempotent
teardown); (iv) a forwarded signal delivered after teardown causes no
further action — in particular no kill forwarded to the child. -/
theorem signal_routes_teardown (hasPid : Bool) (t : List SupEvent) :
    (∀ s : NodeSignal,
      countRemove s (runSup (initialSupState hasPid) t).2 =
        if t.any isTerminal && FORWARDED_SIGNALS.contains s then 1 else 0) ∧
    (t.any isTerminal = false → ∀ e, isTerminal e = true →
      (supStep (runSup (initialSupState hasPid) t).1 e).2 =
        FORWARDED_SIGNALS.map SupAction.removeRoute) ∧
    (t.any isTerminal = true → ∀ e, isTerminal e = true →
      (supStep (runSup (initialSupState hasPid) t).1 e).2 = []) ∧
    (t.any isTerminal = true → ∀ s : NodeSignal,
      (runSup (initialSupState hasPid) (t ++ [SupEvent.deliver s])).2 =
        (runSup (initialSupState hasPid) t).2) := by
  refine ⟨?_, ?_, ?_, ?_⟩
  · intro s
    rw [countRemove_runSup]
    cases hany : t.any isTerminal with
    | false => simp
    | true => simp [initialSupState, forwarded_count]
  · intro hany e he
    rw [runSup_state]
    cases e with
    | deliver s => simp [isTerminal] at he
    | childError m => simp [supStep, hany, initialSupState]
    | childClose c sg => simp [supStep, hany, initialSupState]
  · intro hany e he
    rw [runSup_state]
    cases e with
    | deliver s => simp [isTerminal] at he
    | childError m => simp [supStep, hany]
    | childClose c sg => simp [supStep, hany]
  · intro hany s
    have hst : (runSup (initialSupState hasPid) t).1 = ⟨[], hasPid⟩ := by
      rw [runSup_state]
      simp [hany, initialSupState]
    rw [runSup_append, hst]
    simp [runSup, supStep]

/-- Witness for C6: a trace that forwards one interrupt, then sees the
child close; the route removal happens once, and a second interrupt after
teardown leaves the action log unchanged. -/
theorem signal_routes_teardown_witness :
    countRemove .SIGINT
        (runSup (initialSupState true)
          [SupEvent.deliver .SIGINT, SupEvent.childClose (some 0) none]).2 = 1 ∧
    (runSup (initialSupState true)
        ([SupEvent.deliver .SIGINT, SupEvent.childClose (some 0) none] ++
          [SupEvent.deliver .SIGINT])).2 =
      (runSup (initialSupState true)
        [SupEvent.deliver .SIGINT, SupEvent.childClose (some 0) none]).2 :=
  ⟨((signal_routes_teardown true
      [SupEvent.deliver .SIGINT, SupEvent.childClose (some 0) none]).1 .SIGINT).trans
      (by decide),
   (signal_routes_teardown true
      [SupEvent.deliver .SIGINT, SupEvent.childClose (some 0) none]).2.2.2
      (by decide) .SIGINT⟩

end DotsetRun
